import Mathlib

/-!
Verification of the thunderbird-mcp bridge communication layer:
the response sanitizer (`src/sanitize.rs`), the token locator
(`src/auth.rs`) and the rpc bridge (`src/bridge.rs`), embedded
shallowly as executable Lean functions.
-/

namespace ThunderbirdMcp

/-! Sanitizer (src/sanitize.rs) -/

/-- The character predicate of `sanitize_str`, from
`matches!(n, 0x09 | 0x0a | 0x0d) || (n >= 0x20 && n != 0x7f)`
where `n = c as u32`. -/
def keep_char (c : Char) : Bool :=
  let n := c.toNat
  (n = 0x09 || n = 0x0a || n = 0x0d) || (0x20 ≤ n && n ≠ 0x7f)

/-- Rust `sanitize_str`: `s.chars().filter(|&c| ...).collect()`. -/
def sanitize_str (s : String) : String :=
  ⟨s.data.filter keep_char⟩

/-- The keep-predicate as the spec words it: a scalar is kept iff it is one
of TAB 0x09, LF 0x0A, CR 0x0D, or its code point is ≥ 0x20 and it is not
DEL 0x7F. -/
def spec_keep (c : Char) : Bool :=
  c.toNat = 0x09 || c.toNat = 0x0a || c.toNat = 0x0d ||
    (decide (0x20 ≤ c.toNat) && decide (c.toNat ≠ 0x7f))

/-! Token locator (src/auth.rs) -/

/-- First candidate path: `home.join(".thunderbird-mcp-auth")`. -/
def homeTokenPath (home : String) : String :=
  home ++ "/.thunderbird-mcp-auth"

/-- Second candidate path:
`home.join("snap/thunderbird/common/.thunderbird-mcp-auth")`. -/
def snapTokenPath (home : String) : String :=
  home ++ "/snap/thunderbird/common/.thunderbird-mcp-auth"

/-- Error type `AuthError` from src/auth.rs. -/
inductive AuthError where
  | NoHome : AuthError
  | NotFound (paths : List String) : AuthError
deriving DecidableEq

/-- Rust `char::is_whitespace`: the Unicode White_Space property. -/
def isRustWhitespace (c : Char) : Bool :=
  let n := c.toNat
  n = 0x09 || n = 0x0a || n = 0x0b || n = 0x0c || n = 0x0d || n = 0x20 ||
  n = 0x85 || n = 0xa0 || n = 0x1680 ||
  (0x2000 ≤ n && n ≤ 0x200a) ||
  n = 0x2028 || n = 0x2029 || n = 0x202f || n = 0x205f || n = 0x3000

/-- Rust `str::trim`: remove leading and trailing whitespace scalars. -/
def rustTrim (s : String) : String :=
  ⟨((s.data.dropWhile isRustWhitespace).reverse.dropWhile
      isRustWhitespace).reverse⟩

/-- The readable-files view of the filesystem: maps a path to the text
content `std::fs::read_to_string` would return, or `none` when the read
fails (missing file, unreadable, not valid UTF-8). -/
def FileSystem := String → Option String

/-- The `for path in &candidates` loop of `find_token_in`: the content of
the first candidate that reads successfully. -/
def firstRead (fs : FileSystem) : List String → Option String
  | [] => none
  | p :: rest =>
    match fs p with
    | some content => some content
    | none => firstRead fs rest

/-- Function `find_token_in` from src/auth.rs, with the filesystem passed
explicitly: try the two candidate paths in order, return the first
readable content trimmed, else `NotFound` carrying both paths. -/
def find_token_in (fs : FileSystem) (home : String) :
    Except AuthError String :=
  let candidates := [homeTokenPath home, snapTokenPath home]
  match firstRead fs candidates with
  | some content => .ok (rustTrim content)
  | none => .error (AuthError.NotFound candidates)

/-! Rpc bridge (src/bridge.rs) -/

/-- Model of `serde_json::Value`. Numbers are abstracted to `Int`; none of the
bridge's control flow inspects numeric values. -/
inductive Json where
  | null : Json
  | bool (b : Bool) : Json
  | num (n : Int) : Json
  | str (s : String) : Json
  | arr (xs : List Json) : Json
  | obj (fields : List (String × Json)) : Json

/-- Model of `Value::get(key)`: field lookup on an object, `None` on every other
variant. -/
def Json.get : Json → String → Option Json
  | .obj fields, key => List.lookup key fields
  | _, _ => none

/-- Model of `Value::as_str()`: the string when the value is a JSON string. -/
def Json.as_str : Json → Option String
  | .str s => some s
  | _ => none

/-- Whether the value is a JSON object. -/
def Json.isObj : Json → Bool
  | .obj _ => true
  | _ => false

/-- Error type `BridgeError` from src/bridge.rs. `ConnectionFailed` abstracts the
wrapped `reqwest::Error`; `InvalidJson` carries the parse error message. -/
inductive BridgeError where
  | ConnectionFailed : BridgeError
  | ExtensionError (msg : String) : BridgeError
  | InvalidJson (err : String) : BridgeError
  | Unauthorized : BridgeError

/-- The network's behaviour for one `call`: either `send()` fails, or a
response arrives with a status code and the outcome of `text()`
(`Except Unit String`: the body text, or a read failure). -/
inductive NetResult where
  | sendFail : NetResult
  | response (status : Nat) (textRes : Except Unit String) : NetResult

/-- Method `Bridge::call` from src/bridge.rs, with the transport and the JSON
parser (`serde_json::from_str`, an external collaborator) passed
explicitly. Mirrors the source order: `send()?`; status `401` fails
`Unauthorized` before the body is read; `text()?`; the body is sanitized,
parsed (`InvalidJson` on failure); an object with a string-valued
`error` field fails `ExtensionError`, anything else succeeds. -/
def Bridge.call (parse : String → Except String Json) (net : NetResult) :
    Except BridgeError Json :=
  match net with
  | .sendFail => .error .ConnectionFailed
  | .response status textRes =>
    if status = 401 then
      .error .Unauthorized
    else
      match textRes with
      | .error _ => .error .ConnectionFailed
      | .ok text =>
        match parse (sanitize_str text) with
        | .error e => .error (.InvalidJson e)
        | .ok value =>
          match (Json.get value "error").bind Json.as_str with
          | some err => .error (.ExtensionError err)
          | none => .ok value

/-! Sanitizer theorems -/

/-- Helper: the source's keep predicate agrees with the spec's wording. -/
theorem keep_char_eq_spec_keep (c : Char) : keep_char c = spec_keep c := by
  simp [keep_char, spec_keep, Bool.or_assoc]

/-- C4: sanitize returns the subsequence of the input's scalar sequence
(order preserved, nothing replaced or added) consisting exactly of the
scalars kept by the spec predicate (TAB, LF, CR, or code point ≥ 0x20 and
not DEL); all scalars ≥ 0x80 are kept, and
sanitize "hello\x00world\x07foo\x7fbar" = "helloworldfoobar". -/
theorem sanitize_is_spec_filter :
    (∀ s : String,
      (sanitize_str s).data = s.data.filter spec_keep ∧
      List.Sublist (sanitize_str s).data s.data ∧
      ∀ c ∈ s.data, 0x80 ≤ c.toNat → c ∈ (sanitize_str s).data) ∧
    sanitize_str "hello\x00world\x07foo\x7fbar" = "helloworldfoobar" := by
  constructor
  · intro s
    refine ⟨?_, ?_, ?_⟩
    · exact List.filter_congr fun c _ => keep_char_eq_spec_keep c
    · exact List.filter_sublist s.data
    · intro c hc hge
      refine List.mem_filter.mpr ⟨hc, ?_⟩
      simp only [keep_char, decide_eq_true_eq, Bool.or_eq_true,
        Bool.and_eq_true]
      omega
  · decide

/-- C7: sanitize is total (a Lean function), sanitize "" = "", and
sanitize is idempotent on every string. -/
theorem sanitize_empty_and_idempotent :
    sanitize_str "" = "" ∧
    ∀ s : String, sanitize_str (sanitize_str s) = sanitize_str s := by
  constructor
  · rfl
  · intro s
    show String.mk ((s.data.filter keep_char).filter keep_char) =
      String.mk (s.data.filter keep_char)
    rw [List.filter_filter]
    simp

/-- C8: sanitize is the identity on any input all of whose scalars satisfy
the spec's keep predicate (TAB, LF, CR, or printable including every
scalar ≥ 0x80). -/
theorem sanitize_id_of_all_kept (s : String)
    (h : ∀ c ∈ s.data, spec_keep c = true) : sanitize_str s = s := by
  have hfilter : s.data.filter keep_char = s.data := by
    refine List.filter_eq_self.mpr fun c hc => ?_
    rw [keep_char_eq_spec_keep]
    exact h c hc
  show String.mk (s.data.filter keep_char) = s
  rw [hfilter]

/-- Witness for C8, at a concrete printable input with non-ASCII scalars
and the three kept control characters. -/
theorem sanitize_id_of_all_kept_witness :
    sanitize_str "Héllo wörld 日本語\t\r\n" = "Héllo wörld 日本語\t\r\n" :=
  sanitize_id_of_all_kept "Héllo wörld 日本語\t\r\n" (by decide)

/-! Token locator theorems -/

/-- Helper: a readable home-path file decides the result. -/
theorem find_token_in_home_read (fs : FileSystem) (home : String)
    (c : String) (h1 : fs (homeTokenPath home) = some c) :
    find_token_in fs home = .ok (rustTrim c) := by
  simp [find_token_in, firstRead, h1]

/-- Helper: with the home-path file unreadable, a readable snap-path file
decides the result. -/
theorem find_token_in_snap_read (fs : FileSystem) (home : String)
    (c : String) (h1 : fs (homeTokenPath home) = none)
    (h2 : fs (snapTokenPath home) = some c) :
    find_token_in fs home = .ok (rustTrim c) := by
  simp [find_token_in, firstRead, h1, h2]

/-- C5: when at least one candidate file is readable, resolution returns
the trimmed content of the first readable candidate in the fixed order
home path, then snap path; in particular when the home-path file is
readable its content wins and the snap file is never consulted. -/
theorem find_token_first_readable (fs : FileSystem) (home : String)
    (c : String) :
    (fs (homeTokenPath home) = some c →
      find_token_in fs home = .ok (rustTrim c)) ∧
    (fs (homeTokenPath home) = none → fs (snapTokenPath home) = some c →
      find_token_in fs home = .ok (rustTrim c)) :=
  ⟨find_token_in_home_read fs home c, find_token_in_snap_read fs home c⟩

/-- The filesystem of the C5 witness: both candidate files under home
`/home/u` are readable, with distinct contents. -/
def fsBothTokens : FileSystem := fun p =>
  if p = "/home/u/.thunderbird-mcp-auth" then some " token-home\n"
  else if p = "/home/u/snap/thunderbird/common/.thunderbird-mcp-auth" then
    some "token-snap"
  else none

/-- Witness for C5: with both files present, the home-path content wins
and is trimmed. -/
theorem find_token_first_readable_witness :
    find_token_in fsBothTokens "/home/u" = .ok "token-home" := by
  have h :=
    (find_token_first_readable fsBothTokens "/home/u" " token-home\n").1
      (by decide)
  rw [h]
  rfl

/-- C6: when neither candidate file is readable, resolution fails with
NotFound carrying exactly the two candidate paths, home path first. -/
theorem find_token_not_found (fs : FileSystem) (home : String)
    (h1 : fs (homeTokenPath home) = none)
    (h2 : fs (snapTokenPath home) = none) :
    find_token_in fs home =
      .error (AuthError.NotFound [homeTokenPath home, snapTokenPath home]) := by
  simp [find_token_in, firstRead, h1, h2]

/-- The filesystem of the C6 witness: no file is readable anywhere. -/
def fsNoTokens : FileSystem := fun _ => none

/-- Witness for C6 at the concrete home `/home/u`. -/
theorem find_token_not_found_witness :
    find_token_in fsNoTokens "/home/u" =
      .error (AuthError.NotFound
        ["/home/u/.thunderbird-mcp-auth",
         "/home/u/snap/thunderbird/common/.thunderbird-mcp-auth"]) := by
  have h := find_token_not_found fsNoTokens "/home/u" rfl rfl
  rw [h]
  rfl

/-- C10: when the first readable candidate's content is empty or all
whitespace, resolution succeeds with the empty string; it neither skips
the file nor falls through nor fails. -/
theorem find_token_whitespace_content (fs : FileSystem) (home : String)
    (c : String) (hws : ∀ ch ∈ c.data, isRustWhitespace ch = true)
    (hfirst : fs (homeTokenPath home) = some c ∨
      (fs (homeTokenPath home) = none ∧ fs (snapTokenPath home) = some c)) :
    find_token_in fs home = .ok "" := by
  have htrim : rustTrim c = "" := by
    unfold rustTrim
    rw [List.dropWhile_eq_nil_iff.mpr fun ch hc => hws ch hc]
    rfl
  rcases hfirst with h1 | ⟨h1, h2⟩
  · rw [find_token_in_home_read fs home c h1, htrim]
  · rw [find_token_in_snap_read fs home c h1 h2, htrim]

/-- The filesystem of the C10 witness: only the home-path file exists and
it holds nothing but whitespace. -/
def fsWhitespaceToken : FileSystem := fun p =>
  if p = "/home/w/.thunderbird-mcp-auth" then some " \t\n " else none

/-- Witness for C10: a whitespace-only first candidate yields the empty
secret. -/
theorem find_token_whitespace_content_witness :
    find_token_in fsWhitespaceToken "/home/w" = .ok "" :=
  find_token_whitespace_content fsWhitespaceToken "/home/w" " \t\n "
    (by decide) (Or.inl (by decide))

/-! Rpc bridge theorems -/

/-- Helper: on a non-401 response whose body was read, call is exactly
the sanitize-parse-classify pipeline applied to the body. -/
theorem call_eq_pipeline (parse : String → Except String Json)
    (status : Nat) (body : String) (hs : status ≠ 401) :
    Bridge.call parse (.response status (.ok body)) =
      (match parse (sanitize_str body) with
       | .error e => .error (.InvalidJson e)
       | .ok value =>
         match (Json.get value "error").bind Json.as_str with
         | some err => .error (.ExtensionError err)
         | none => .ok value) := by
  simp [Bridge.call, hs]

/-- C2: a response with status exactly 401 yields Unauthorized without
the body being read or inspected: the result is the same for every
body-read outcome, including a failed read. -/
theorem call_unauthorized_on_401 (parse : String → Except String Json)
    (status : Nat) (textRes : Except Unit String) (h : status = 401) :
    Bridge.call parse (.response status textRes) =
      .error .Unauthorized := by
  simp [Bridge.call, h]

/-- Witness for C2: a 401 whose body holds an error field still maps to
Unauthorized, and nothing else. -/
theorem call_unauthorized_on_401_witness :
    Bridge.call (fun _ => Except.error "unused")
      (.response 401 (.ok "\x7b\"error\": \"boom\"\x7d")) =
      .error .Unauthorized :=
  call_unauthorized_on_401 (fun _ => Except.error "unused") 401
    (.ok "\x7b\"error\": \"boom\"\x7d") rfl

/-- C1: on a non-401 response whose sanitized body parses, an object with
a string-valued error field yields ExtensionError with exactly that
string, and any other parsed value is returned unchanged as success. -/
theorem call_classifies_parsed_value (parse : String → Except String Json)
    (status : Nat) (body : String) (v : Json) (hs : status ≠ 401)
    (hp : parse (sanitize_str body) = .ok v) :
    (∀ e, (Json.get v "error").bind Json.as_str = some e →
      Bridge.call parse (.response status (.ok body)) =
        .error (.ExtensionError e)) ∧
    ((Json.get v "error").bind Json.as_str = none →
      Bridge.call parse (.response status (.ok body)) = .ok v) := by
  constructor
  · intro e he
    simp [call_eq_pipeline parse status body hs, hp, he]
  · intro he
    simp [call_eq_pipeline parse status body hs, hp, he]

/-- The parser of the C1 witness: it recognises the accounts body. -/
def parseAccounts : String → Except String Json := fun s =>
  if s = "\x7b\"accounts\": []\x7d" then
    .ok (Json.obj [("accounts", Json.arr [])])
  else .error "unexpected"

/-- Witness for C1: a 200 response with body holding an accounts object
and no error field is returned unchanged as success. -/
theorem call_classifies_parsed_value_witness :
    Bridge.call parseAccounts
      (.response 200 (.ok "\x7b\"accounts\": []\x7d")) =
      .ok (Json.obj [("accounts", Json.arr [])]) :=
  (call_classifies_parsed_value parseAccounts 200
      "\x7b\"accounts\": []\x7d" (Json.obj [("accounts", Json.arr [])])
      (by decide) rfl).2 rfl

/-- C3: on every non-401 response the body is sanitized before parsing,
the whole outcome is a function of parse applied to the sanitized body,
and a parse failure yields InvalidJson carrying the parse error. -/
theorem call_parses_sanitized_body (parse : String → Except String Json)
    (status : Nat) (body : String) (hs : status ≠ 401) :
    (∀ e, parse (sanitize_str body) = .error e →
      Bridge.call parse (.response status (.ok body)) =
        .error (.InvalidJson e)) ∧
    Bridge.call parse (.response status (.ok body)) =
      (match parse (sanitize_str body) with
       | .error e => .error (.InvalidJson e)
       | .ok value =>
         match (Json.get value "error").bind Json.as_str with
         | some err => .error (.ExtensionError err)
         | none => .ok value) := by
  refine ⟨?_, call_eq_pipeline parse status body hs⟩
  intro e he
  simp [call_eq_pipeline parse status body hs, he]

/-- Witness for C3: a 500 response whose body fails to parse after
sanitization yields InvalidJson with the parser's error. -/
theorem call_parses_sanitized_body_witness :
    Bridge.call (fun _ => Except.error "expected value")
      (.response 500 (.ok "not json\x00")) =
      .error (.InvalidJson "expected value") :=
  (call_parses_sanitized_body (fun _ => Except.error "expected value") 500
      "not json\x00" (by decide)).1 "expected value" rfl

/-- C9: a non-401 response whose sanitized body parses to a non-object,
or to an object whose error field is absent or not a string, succeeds
with the parsed value; ExtensionError needs a string-valued error field. -/
theorem call_ok_without_string_error (parse : String → Except String Json)
    (status : Nat) (body : String) (v : Json) (hs : status ≠ 401)
    (hp : parse (sanitize_str body) = .ok v)
    (hv : v.isObj = false ∨ Json.get v "error" = none ∨
      ∃ j, Json.get v "error" = some j ∧ j.as_str = none) :
    Bridge.call parse (.response status (.ok body)) = .ok v := by
  have hnone : (Json.get v "error").bind Json.as_str = none := by
    rcases hv with h | h | ⟨j, hj, hjs⟩
    · cases v <;> simp_all [Json.isObj, Json.get]
    · rw [h]
      rfl
    · rw [hj]
      exact hjs
  simp [call_eq_pipeline parse status body hs, hp, hnone]

/-- The parser of the C9 witness: it recognises a body whose error field
is a number, not a string. -/
def parseNumError : String → Except String Json := fun s =>
  if s = "\x7b\"error\": 42\x7d" then
    .ok (Json.obj [("error", Json.num 42)])
  else .error "unexpected"

/-- Witness for C9: a 200 response with a numeric error field succeeds
with the parsed object. -/
theorem call_ok_without_string_error_witness :
    Bridge.call parseNumError (.response 200 (.ok "\x7b\"error\": 42\x7d")) =
      .ok (Json.obj [("error", Json.num 42)]) :=
  call_ok_without_string_error parseNumError 200 "\x7b\"error\": 42\x7d"
    (Json.obj [("error", Json.num 42)]) (by decide) rfl
    (Or.inr (Or.inr ⟨Json.num 42, rfl, rfl⟩))

end ThunderbirdMcp
